import Mathlib

/-!
Verification development for the schema dispatch, naming and bound-inference
layer of the oapi derive macro (file `crates/oapi-macros/src/schema/mod.rs`).

The development shallowly embeds the layer under study:
the shape classifier `SchemaVariant::new`, the symbol and registration
planner, the bound planner and the generation assembler inside
`ToSchema::try_to_tokens`, plus the small field-rule helpers
`is_not_skipped` and `is_flatten`.

The generated procedure is represented at two levels: a generation-time
plan (which symbol expression is emitted, which body shape is emitted,
which bound utility is invoked on which generic-parameter list), and a
runtime semantics evaluating the emitted body against the runtime type
name and a registry (components) state.

External collaborators (the feature parser, the shape-specific schema
builders, the bound-construction utility `crate::bound`, the serde
attribute interpreter) are not part of the file under study; they are
modelled from the specification where the claims need them, and each such
definition is marked `Modelled from the spec:` in its doc comment.
-/

namespace SalvoOapi

/-- Explicit registry-name override feature (`Symbol`); `val` is the runtime
string value of the override expression interpolated into the generated
code. -/
structure Symbol where
  val : String
deriving DecidableEq

/-- Inline feature: a boolean suppressing registration entirely
(`Inline(bool)` in the source, accessed through field 0). -/
structure Inline where
  val : Bool
deriving DecidableEq

/-- SkipBound feature: a boolean suppressing automatic bound synthesis
(`SkipBound(bool)` in the source). -/
structure SkipBound where
  val : Bool
deriving DecidableEq

/-- Explicit bound override feature (`Bound`); `text` is the rendered
where-predicate token text carried by the feature. -/
structure Bound where
  text : String
deriving DecidableEq

/-- Modelled from the spec: the typed feature set produced by the external
attribute parser for one type, after parsing succeeds. Only the features
this layer pops are represented. -/
structure ParsedFeatures where
  symbol : Option Symbol
  inline : Option Inline
  skipBound : Option SkipBound
  bound : Option Bound
  renameAll : Option String
deriving DecidableEq

/-- Diagnostic severity, mirroring `DiagLevel`. -/
inductive DiagLevel where
  | error
  | warning
deriving DecidableEq

/-- A generation-time diagnostic, mirroring `Diagnostic::spanned`: a source
location (here the identifier text the span points at), a level and a
message. -/
structure Diagnostic where
  span : String
  level : DiagLevel
  message : String
deriving DecidableEq

/-- Structural field forms of a struct, mirroring `syn::Fields`. Field
counts stand in for the field lists, whose contents this layer never
inspects (they are handed to the external builders). -/
inductive Fields where
  | unnamed (count : Nat)
  | named (count : Nat)
  | unit
deriving DecidableEq

/-- Structural form of the incoming type definition, mirroring `syn::Data`:
a struct, an enum, or a union (the unsupported form). -/
inductive Data where
  | struct (fields : Fields)
  | enum (variantCount : Nat)
  | union
deriving DecidableEq

/-- Modelled from the spec: the outcome of the external feature parsers for
each shape category. `parseUnnamed` stands for
`attributes.parse_features::<UnnamedFieldStructFeatures>()`, `parseNamed`
for the named-field parser, and `parseEnum` for the feature extraction
performed inside the external `EnumSchema::new` constructor; each may fail
with a diagnostic, which this layer propagates unchanged. -/
structure Attributes where
  parseUnnamed : Except Diagnostic ParsedFeatures
  parseNamed : Except Diagnostic ParsedFeatures
  parseEnum : Except Diagnostic ParsedFeatures

/-- The per-variant data this layer keeps after classification: the popped
`symbol` and `inline` features and the remaining feature bag, of which
this layer later pops `skipBound` and `bound`. It condenses the fields of
`NamedStructSchema` / `UnnamedStructSchema` / `EnumSchema` that the
dispatch layer reads. -/
structure StructSchemaData where
  symbol : Option Symbol
  inline : Option Inline
  skipBound : Option SkipBound
  bound : Option Bound
deriving DecidableEq

/-- The four-way classified shape, mirroring `SchemaVariant`. -/
inductive SchemaVariant where
  | Named (d : StructSchemaData)
  | Unnamed (d : StructSchemaData)
  | Enum (d : StructSchemaData)
  | Unit
deriving DecidableEq

/-- Shape classification, mirroring `SchemaVariant::new`: structs with
unnamed, named or unit fields map to the corresponding variant (parsing
the scoped feature set and popping `Symbol` and `Inline` for the first
two), enums delegate to the external enum constructor, and any other data
form is a spanned error diagnostic at the identifier of the type. -/
def SchemaVariant.new (data : Data) (attributes : Attributes) (ident : String) :
    Except Diagnostic SchemaVariant :=
  match data with
  | Data.struct fields =>
    match fields with
    | Fields.unnamed _ =>
      match attributes.parseUnnamed with
      | Except.error e => Except.error e
      | Except.ok fs =>
        Except.ok (SchemaVariant.Unnamed
          { symbol := fs.symbol, inline := fs.inline,
            skipBound := fs.skipBound, bound := fs.bound })
    | Fields.named _ =>
      match attributes.parseNamed with
      | Except.error e => Except.error e
      | Except.ok fs =>
        Except.ok (SchemaVariant.Named
          { symbol := fs.symbol, inline := fs.inline,
            skipBound := fs.skipBound, bound := fs.bound })
    | Fields.unit => Except.ok SchemaVariant.Unit
  | Data.enum _ =>
    match attributes.parseEnum with
    | Except.error e => Except.error e
    | Except.ok fs =>
      Except.ok (SchemaVariant.Enum
        { symbol := fs.symbol, inline := fs.inline,
          skipBound := fs.skipBound, bound := fs.bound })
  | Data.union =>
    Except.error
      { span := ident, level := DiagLevel.error,
        message := "unexpected data type, expected syn::Data::Struct or syn::Data::Enum" }

/-- Accessor mirroring `SchemaVariant::symbol`: the unit variant has no
symbol feature. -/
def SchemaVariant.symbol : SchemaVariant → Option Symbol
  | SchemaVariant.Enum d => d.symbol
  | SchemaVariant.Named d => d.symbol
  | SchemaVariant.Unnamed d => d.symbol
  | _ => none

/-- Accessor mirroring `SchemaVariant::inline`: the unit variant has no
inline feature. -/
def SchemaVariant.inline : SchemaVariant → Option Inline
  | SchemaVariant.Enum d => d.inline
  | SchemaVariant.Named d => d.inline
  | SchemaVariant.Unnamed d => d.inline
  | _ => none

/-- Accessor mirroring `SchemaVariant::pop_skip_bound`. -/
def SchemaVariant.pop_skip_bound : SchemaVariant → Option SkipBound
  | SchemaVariant.Enum d => d.skipBound
  | SchemaVariant.Named d => d.skipBound
  | SchemaVariant.Unnamed d => d.skipBound
  | _ => none

/-- Accessor mirroring `SchemaVariant::pop_bound`. -/
def SchemaVariant.pop_bound : SchemaVariant → Option Bound
  | SchemaVariant.Enum d => d.bound
  | SchemaVariant.Named d => d.bound
  | SchemaVariant.Unnamed d => d.bound
  | _ => none

/-- One generic type parameter: its name, its declared bounds, and an
optional default type value. -/
structure TypeParam where
  name : String
  bounds : List String
  default : Option String
deriving DecidableEq

/-- The generic-parameter list of the type together with its where-clause
predicates (each rendered as text). `typeParams` holds the type parameters
only, as iterated by `Generics::type_params`. -/
structure Generics where
  typeParams : List TypeParam
  wherePredicates : List String
deriving DecidableEq

/-- Modelled from the spec: `bound::without_defaults` of the external
bound-construction utility strips default type-parameter values from the
generic-parameter list (defaults are invalid in the generated impl
position); declared bounds and existing where-predicates are kept. -/
def without_defaults (g : Generics) : Generics :=
  { g with typeParams := g.typeParams.map (fun p => { p with default := none }) }

/-- Modelled from the spec: `bound::with_where_predicates` attaches the
literal explicit-bound text as an additional where-clause on the given
generic-parameter list. -/
def with_where_predicates (g : Generics) (predicates : String) : Generics :=
  { g with wherePredicates := g.wherePredicates ++ [predicates] }

/-- Modelled from the spec: `bound::with_bound` synthesizes a default
constraint requiring every participating generic parameter to satisfy the
given capability bound; which parameters participate is decided by the
utility, abstracted here as the choice function `part`. The constraint is
attached as where-predicates on the given list. -/
def with_bound (part : Data → Generics → List String) (data : Data)
    (g : Generics) (c : String) : Generics :=
  { g with wherePredicates := g.wherePredicates ++ (part data g).map (fun p => p ++ " : " ++ c) }

/-- The default capability constraint text `ToSchema + \x27static` passed to
`bound::with_bound` when neither SkipBound nor Bound applies. -/
def toSchemaStaticBound : String := "ToSchema + \x27static"

/-- The runtime symbol expression emitted into the generated procedure:
either the override normalized by replacing spaced path separators with a
dot, or the generic splice of the override with the runtime type-name
argument suffix, or the plain runtime type name with `::` replaced by
a dot. -/
inductive SymbolExpr where
  | replaceSpacedSep (s : String)
  | spliceGeneric (s : String)
  | typeNameReplace
deriving DecidableEq

/-- Replacement of all non-overlapping occurrences of a pattern, scanning
left to right, as performed by the runtime string replace the generated
code calls; fuel-structured on the input length so it computes by kernel
reduction. -/
def replaceFuel : Nat → List Char → List Char → List Char → List Char
  | 0, s, _, _ => s
  | _ + 1, [], _, _ => []
  | n + 1, c :: rest, pat, rep =>
    if pat ≠ [] ∧ pat.isPrefixOf (c :: rest) then
      rep ++ replaceFuel n ((c :: rest).drop pat.length) pat rep
    else
      c :: replaceFuel n rest pat rep

/-- String replacement of every non-overlapping occurrence of `pat` by
`rep`, the semantics of the runtime replace call in the generated code. -/
def strReplace (s pat rep : String) : String :=
  String.mk (replaceFuel s.data.length s.data pat.data rep.data)

/-- Split at the first occurrence of a character, the semantics of the
runtime split-once call in the generated code: the two parts around the
first occurrence, or none when the character does not occur. -/
def splitOnce (s : String) (c : Char) : Option (String × String) :=
  match s.data.findIdx? (fun x => x = c) with
  | none => none
  | some i => some (String.mk (s.data.take i), String.mk (s.data.drop (i + 1)))

/-- Runtime evaluation of the emitted symbol expression, given the value of
the runtime fully qualified type name of the instantiated type. -/
def SymbolExpr.eval (e : SymbolExpr) (fullName : String) : String :=
  match e with
  | SymbolExpr.replaceSpacedSep s => strReplace s " :: " "."
  | SymbolExpr.spliceGeneric s =>
    match splitOnce fullName '<' with
    | some (_, args) => s ++ "<" ++ args
    | none => fullName
  | SymbolExpr.typeNameReplace => strReplace fullName "::" "."

/-- The schema-construction expression interpolated into the emitted body:
the fixed empty-schema expression for the unit variant, or the output of
the external shape-specific builder for the other three variants
(modelled from the spec as an opaque expression determined by the
variant). -/
inductive SchemaExpr where
  | emptySchema
  | builder (v : SchemaVariant)
deriving DecidableEq

/-- Dispatch mirroring `SchemaVariant::try_to_tokens`: enum, named and
unnamed variants delegate to their external builders; the unit variant
renders the fixed empty-schema expression. -/
def SchemaVariant.try_to_token_stream : SchemaVariant → SchemaExpr
  | SchemaVariant.Enum d => SchemaExpr.builder (SchemaVariant.Enum d)
  | SchemaVariant.Named d => SchemaExpr.builder (SchemaVariant.Named d)
  | SchemaVariant.Unnamed d => SchemaExpr.builder (SchemaVariant.Unnamed d)
  | SchemaVariant.Unit => SchemaExpr.emptySchema

/-- The emitted procedure body: either return the built schema value
directly (inline), or build, insert under the symbol, and return a
reference. -/
inductive BodyPlan where
  | direct (e : SchemaExpr)
  | register (e : SchemaExpr) (sym : SymbolExpr)
deriving DecidableEq

/-- The statements of the emitted body, in textual order. -/
inductive Stmt where
  | letSchema (e : SchemaExpr)
  | insertSchema (sym : SymbolExpr)
  | returnRef (sym : SymbolExpr)
  | returnSchema (e : SchemaExpr)
deriving DecidableEq

/-- Textual statement sequence of the emitted body: the direct body is a
single return of the schema value; the registering body is the let
binding, then the registry insert, then the return of the reference. -/
def BodyPlan.stmts : BodyPlan → List Stmt
  | BodyPlan.direct e => [Stmt.returnSchema e]
  | BodyPlan.register e s => [Stmt.letSchema e, Stmt.insertSchema s, Stmt.returnRef s]

/-- Runtime schema value: the fixed empty schema, or the opaque value built
by an external builder for the given variant. -/
inductive SchemaValue where
  | empty
  | built (v : SchemaVariant)
deriving DecidableEq

/-- Runtime evaluation of the schema-construction expression. -/
def SchemaExpr.eval : SchemaExpr → SchemaValue
  | SchemaExpr.emptySchema => SchemaValue.empty
  | SchemaExpr.builder v => SchemaValue.built v

/-- The registry of named schemas (`Components`): a keyed map from symbol
string to schema value, keys unique. -/
structure Components where
  schemas : List (String × SchemaValue)
deriving DecidableEq

/-- Registry insert with overwrite semantics (last write wins): any prior
entry under the key is removed and the new pair stored. -/
def Components.insert (c : Components) (k : String) (v : SchemaValue) : Components :=
  { schemas := (k, v) :: c.schemas.filter (fun kv => kv.1 ≠ k) }

/-- Registry lookup. -/
def Components.get (c : Components) (k : String) : Option SchemaValue :=
  (c.schemas.find? (fun kv => kv.1 == k)).map (fun kv => kv.2)

/-- The value the generated procedure returns: a reference carrying a path
string, or the schema value itself (`RefOr`). -/
inductive RefOr where
  | Ref (path : String)
  | Value (v : SchemaValue)
deriving DecidableEq

/-- Runtime semantics of the emitted body, given the runtime fully
qualified type name and the registry state: the direct body leaves the
registry untouched and returns the schema value; the registering body
builds the schema, evaluates the symbol, inserts, and only then returns
the reference whose path is the schemas prefix followed by the symbol. -/
def BodyPlan.run (b : BodyPlan) (fullName : String) (comps : Components) :
    Components × RefOr :=
  match b with
  | BodyPlan.direct e => (comps, RefOr.Value e.eval)
  | BodyPlan.register e symExpr =>
    let schema := e.eval
    let sym := symExpr.eval fullName
    (comps.insert sym schema, RefOr.Ref ("#/components/schemas/" ++ sym))

/-- Symbol planning, mirroring lines 64-84 of `ToSchema::try_to_tokens`:
inline suppresses the symbol entirely; an explicit override is normalized
when the type has no type parameters and spliced with the runtime
type-name arguments otherwise; with no override the runtime type name
with separators replaced is used. -/
def computeSymbol (variant : SchemaVariant) (generics : Generics) : Option SymbolExpr :=
  let inline := (variant.inline.map Inline.val).getD false
  if inline then none
  else
    match variant.symbol with
    | some symbol =>
      if generics.typeParams.isEmpty then
        some (SymbolExpr.replaceSpacedSep symbol.val)
      else
        some (SymbolExpr.spliceGeneric symbol.val)
    | none => some SymbolExpr.typeNameReplace

/-- The generation plan assembled by `ToSchema::try_to_tokens`: the
generic-parameter list of the generated impl after bound planning, and
the emitted body. -/
structure GenOut where
  generics : Generics
  body : BodyPlan
deriving DecidableEq

/-- Generation assembly, mirroring `ToSchema::try_to_tokens` after
classification: symbol planning, then the SkipBound / Bound / default
bound decision on the defaults-stripped generic-parameter list, then the
body (direct when no symbol, registering otherwise). `part` abstracts the
participation choice of the external bound utility. -/
def try_to_tokens_plan (part : Data → Generics → List String) (data : Data)
    (variant : SchemaVariant) (generics : Generics) : GenOut :=
  let symbol := computeSymbol variant generics
  let skip_bound := variant.pop_skip_bound
  let bound := if skip_bound = some { val := true } then none
    else variant.pop_bound.map Bound.text
  let g0 := without_defaults generics
  let g1 :=
    if skip_bound ≠ some { val := true } then
      match bound with
      | some predicates => with_where_predicates g0 predicates
      | none => with_bound part data g0 toSchemaStaticBound
    else g0
  let body :=
    match symbol with
    | none => BodyPlan.direct variant.try_to_token_stream
    | some s => BodyPlan.register variant.try_to_token_stream s
  { generics := g1, body := body }

/-- The full entry point mirroring `ToSchema::try_to_tokens`: classify the
data into a shape variant (propagating classification and feature-parse
diagnostics), then assemble the generation plan; exactly one generated
procedure per type definition, none on failure. -/
def ToSchema.try_to_tokens (part : Data → Generics → List String) (data : Data)
    (attributes : Attributes) (ident : String) (generics : Generics) :
    Except Diagnostic GenOut :=
  match SchemaVariant.new data attributes ident with
  | Except.error e => Except.error e
  | Except.ok variant => Except.ok (try_to_tokens_plan part data variant generics)

/-- Modelled from the spec: the value produced by the external third-party
serialization-attribute interpreter for one field; only the skipped and
flattened flags are consulted by this layer. -/
structure SerdeValue where
  skip : Bool
  flatten : Bool
deriving DecidableEq

/-- Field inclusion rule mirroring `is_not_skipped`: a field with no serde
rule is included; with a rule, it is included unless the rule sets skip. -/
def is_not_skipped (rule : Option SerdeValue) : Bool :=
  (rule.map (fun value => !value.skip)).getD true

/-- Field flatten rule mirroring `is_flatten`: a field with no serde rule
is not flattened; with a rule, flattened exactly when the rule sets
flatten. -/
def is_flatten (rule : Option SerdeValue) : Bool :=
  (rule.map (fun value => value.flatten)).getD false

theorem strData_append (a b : String) : (a ++ b).data = a.data ++ b.data := rfl

theorem strAppend_left_cancel {s a b : String} (h : s ++ a = s ++ b) : a = b := by
  have hd : s.data ++ a.data = s.data ++ b.data := congrArg String.data h
  have hab : a.data = b.data := List.append_cancel_left hd
  cases a
  cases b
  exact congrArg String.mk hab

/-- C10: a field whose third-party serialization rule is absent is treated
as included (not skipped) and not flattened; with a rule present,
inclusion and flattening follow exactly the skip and flatten flags of
the rule. -/
theorem C10_serde_defaults :
    is_not_skipped none = true ∧ is_flatten none = false ∧
    (∀ v : SerdeValue, is_not_skipped (some v) = !v.skip) ∧
    (∀ v : SerdeValue, is_flatten (some v) = v.flatten) :=
  ⟨rfl, rfl, fun _ => rfl, fun _ => rfl⟩

/-- C4: for a non-generic type with an explicit symbol override that is not
inline, the emitted symbol expression is the override normalized once,
and its runtime value is the override string with spaced namespace
separator sequences replaced by a dot, independent of the runtime type
name. -/
theorem C4_nongeneric_symbol_override (v : SchemaVariant) (g : Generics) (S : Symbol)
    (hsym : v.symbol = some S)
    (hinl : (v.inline.map Inline.val).getD false = false)
    (hng : g.typeParams = []) :
    computeSymbol v g = some (SymbolExpr.replaceSpacedSep S.val) ∧
    ∀ fullName, (SymbolExpr.replaceSpacedSep S.val).eval fullName = strReplace S.val " :: " "." := by
  constructor
  · simp [computeSymbol, hsym, hinl, hng]
  · intro fullName
    rfl

theorem C4_witness :
    computeSymbol
      (SchemaVariant.Named
        { symbol := some { val := "api :: models :: User" }, inline := none,
          skipBound := none, bound := none })
      { typeParams := [], wherePredicates := [] }
      = some (SymbolExpr.replaceSpacedSep "api :: models :: User") ∧
    (SymbolExpr.replaceSpacedSep "api :: models :: User").eval "ignored" = "api.models.User" := by
  have h := C4_nongeneric_symbol_override
    (SchemaVariant.Named
      { symbol := some { val := "api :: models :: User" }, inline := none,
        skipBound := none, bound := none })
    { typeParams := [], wherePredicates := [] }
    { val := "api :: models :: User" } rfl rfl rfl
  exact ⟨h.1, (h.2 "ignored").trans (by decide)⟩

/-- C5: for a type with no symbol override and no inline flag, the emitted
symbol expression is the runtime type name, and its runtime value is the
fully qualified runtime name with every occurrence of the namespace
separator replaced by a dot. -/
theorem C5_default_symbol (v : SchemaVariant) (g : Generics)
    (hsym : v.symbol = none) (hinl : v.inline = none) :
    computeSymbol v g = some SymbolExpr.typeNameReplace ∧
    ∀ fullName, SymbolExpr.typeNameReplace.eval fullName = strReplace fullName "::" "." := by
  constructor
  · simp [computeSymbol, hsym, hinl]
  · intro fullName
    rfl

theorem C5_witness :
    computeSymbol
      (SchemaVariant.Unnamed
        { symbol := none, inline := none, skipBound := none, bound := none })
      { typeParams := [], wherePredicates := [] }
      = some SymbolExpr.typeNameReplace ∧
    SymbolExpr.typeNameReplace.eval "salvo::models::User" = "salvo.models.User" := by
  have h := C5_default_symbol
    (SchemaVariant.Unnamed
      { symbol := none, inline := none, skipBound := none, bound := none })
    { typeParams := [], wherePredicates := [] } rfl rfl
  exact ⟨h.1, (h.2 "salvo::models::User").trans (by decide)⟩

/-- C2: for a generic type (at least one type parameter) with an explicit
symbol override that is not inline, the emitted symbol expression is the
generic splice; at runtime it equals the override followed by the open
angle bracket and the argument suffix of the runtime type name when that
name contains one, falls back to the raw runtime name otherwise, and two
instantiations whose argument suffixes differ compute distinct symbols. -/
theorem C2_generic_symbol_splice (v : SchemaVariant) (g : Generics) (S : Symbol)
    (hsym : v.symbol = some S)
    (hinl : (v.inline.map Inline.val).getD false = false)
    (hg : g.typeParams ≠ []) :
    computeSymbol v g = some (SymbolExpr.spliceGeneric S.val) ∧
    (∀ fullName pre args, splitOnce fullName '<' = some (pre, args) →
      (SymbolExpr.spliceGeneric S.val).eval fullName = S.val ++ "<" ++ args) ∧
    (∀ fullName, splitOnce fullName '<' = none →
      (SymbolExpr.spliceGeneric S.val).eval fullName = fullName) ∧
    (∀ n1 n2 p1 a1 p2 a2,
      splitOnce n1 '<' = some (p1, a1) → splitOnce n2 '<' = some (p2, a2) → a1 ≠ a2 →
      (SymbolExpr.spliceGeneric S.val).eval n1 ≠ (SymbolExpr.spliceGeneric S.val).eval n2) := by
  refine ⟨?_, ?_, ?_, ?_⟩
  · cases hp : g.typeParams with
    | nil => exact absurd hp hg
    | cons a t => simp [computeSymbol, hsym, hinl, hp]
  · intro fullName pre args hsplit
    simp [SymbolExpr.eval, hsplit]
  · intro fullName hsplit
    simp [SymbolExpr.eval, hsplit]
  · intro n1 n2 p1 a1 p2 a2 h1 h2 hne heq
    rw [show (SymbolExpr.spliceGeneric S.val).eval n1 = S.val ++ "<" ++ a1 by
          simp [SymbolExpr.eval, h1],
        show (SymbolExpr.spliceGeneric S.val).eval n2 = S.val ++ "<" ++ a2 by
          simp [SymbolExpr.eval, h2]] at heq
    exact hne (strAppend_left_cancel heq)

theorem C2_witness :
    computeSymbol
      (SchemaVariant.Unnamed
        { symbol := some { val := "Pair" }, inline := none, skipBound := none, bound := none })
      { typeParams := [{ name := "T", bounds := [], default := none }], wherePredicates := [] }
      = some (SymbolExpr.spliceGeneric "Pair") ∧
    (SymbolExpr.spliceGeneric "Pair").eval "salvo::Pair<i32>" = "Pair<i32>" ∧
    (SymbolExpr.spliceGeneric "Pair").eval "salvo::Pair<i32>"
      ≠ (SymbolExpr.spliceGeneric "Pair").eval "salvo::Pair<alloc::string::String>" := by
  have h := C2_generic_symbol_splice
    (SchemaVariant.Unnamed
      { symbol := some { val := "Pair" }, inline := none, skipBound := none, bound := none })
    { typeParams := [{ name := "T", bounds := [], default := none }], wherePredicates := [] }
    { val := "Pair" } rfl rfl (by decide)
  refine ⟨h.1, ?_, ?_⟩
  · exact (h.2.1 "salvo::Pair<i32>" "salvo::Pair" "i32>" (by decide)).trans (by decide)
  · exact h.2.2.2 "salvo::Pair<i32>" "salvo::Pair<alloc::string::String>"
      "salvo::Pair" "i32>" "salvo::Pair" "alloc::string::String>"
      (by decide) (by decide) (by decide)

/-- C3: whenever a symbol is computed (the type is not inline), the emitted
body is the registering body: its statements are, in textual order, the
schema construction binding, the registry insert, and the return of the
reference; at runtime it inserts the built schema under the evaluated
symbol with overwrite semantics and only then returns a reference whose
path is the schemas prefix followed by the symbol. -/
theorem C3_register_insert_then_ref (part : Data → Generics → List String)
    (data : Data) (v : SchemaVariant) (g : Generics) (s : SymbolExpr)
    (hs : computeSymbol v g = some s) :
    (try_to_tokens_plan part data v g).body = BodyPlan.register v.try_to_token_stream s ∧
    (try_to_tokens_plan part data v g).body.stmts =
      [Stmt.letSchema v.try_to_token_stream, Stmt.insertSchema s, Stmt.returnRef s] ∧
    (∀ fullName comps,
      (try_to_tokens_plan part data v g).body.run fullName comps =
        (comps.insert (s.eval fullName) v.try_to_token_stream.eval,
         RefOr.Ref ("#/components/schemas/" ++ s.eval fullName))) ∧
    (∀ comps k val, (Components.insert comps k val).get k = some val) := by
  have hbody : (try_to_tokens_plan part data v g).body
      = BodyPlan.register v.try_to_token_stream s := by
    simp [try_to_tokens_plan, hs]
  refine ⟨hbody, ?_, ?_, ?_⟩
  · rw [hbody]
    rfl
  · intro fullName comps
    rw [hbody]
    rfl
  · intro comps k val
    simp [Components.insert, Components.get, List.find?]

theorem C3_witness :
    (try_to_tokens_plan (fun _ _ => []) (Data.struct (Fields.named 1))
      (SchemaVariant.Named
        { symbol := some { val := "Pair" }, inline := none, skipBound := none, bound := none })
      { typeParams := [{ name := "T", bounds := [], default := none }],
        wherePredicates := [] }).body.run "salvo::Pair<i32>" { schemas := [] } =
      ({ schemas := [("Pair<i32>",
          SchemaValue.built (SchemaVariant.Named
            { symbol := some { val := "Pair" }, inline := none,
              skipBound := none, bound := none }))] },
       RefOr.Ref "#/components/schemas/Pair<i32>") := by
  have h := C3_register_insert_then_ref (fun _ _ => []) (Data.struct (Fields.named 1))
    (SchemaVariant.Named
      { symbol := some { val := "Pair" }, inline := none, skipBound := none, bound := none })
    { typeParams := [{ name := "T", bounds := [], default := none }], wherePredicates := [] }
    (SymbolExpr.spliceGeneric "Pair") (by decide)
  exact (h.2.2.1 "salvo::Pair<i32>" { schemas := [] }).trans (by decide)

/-- C6: for a type whose Inline feature is present and true, no symbol is
computed (even when a symbol override is also present, as the witness
instantiation shows), the emitted body returns the built schema value
directly, its statements contain no registry insert and no reference
return, and running it leaves the registry unchanged. -/
theorem C6_inline_direct (part : Data → Generics → List String) (data : Data)
    (v : SchemaVariant) (g : Generics)
    (hinl : v.inline = some { val := true }) :
    computeSymbol v g = none ∧
    (try_to_tokens_plan part data v g).body = BodyPlan.direct v.try_to_token_stream ∧
    (try_to_tokens_plan part data v g).body.stmts = [Stmt.returnSchema v.try_to_token_stream] ∧
    (∀ s, Stmt.insertSchema s ∉ (try_to_tokens_plan part data v g).body.stmts) ∧
    (∀ s, Stmt.returnRef s ∉ (try_to_tokens_plan part data v g).body.stmts) ∧
    (∀ fullName comps,
      (try_to_tokens_plan part data v g).body.run fullName comps =
        (comps, RefOr.Value v.try_to_token_stream.eval)) := by
  have hcs : computeSymbol v g = none := by
    simp [computeSymbol, hinl]
  have hbody : (try_to_tokens_plan part data v g).body
      = BodyPlan.direct v.try_to_token_stream := by
    simp [try_to_tokens_plan, hcs]
  refine ⟨hcs, hbody, ?_, ?_, ?_, ?_⟩
  · rw [hbody]
    rfl
  · intro s
    rw [hbody]
    simp [BodyPlan.stmts]
  · intro s
    rw [hbody]
    simp [BodyPlan.stmts]
  · intro fullName comps
    rw [hbody]
    rfl

theorem C6_witness :
    computeSymbol
      (SchemaVariant.Unnamed
        { symbol := some { val := "Wrapper" }, inline := some { val := true },
          skipBound := none, bound := none })
      { typeParams := [], wherePredicates := [] } = none ∧
    (try_to_tokens_plan (fun _ _ => []) (Data.struct (Fields.unnamed 1))
      (SchemaVariant.Unnamed
        { symbol := some { val := "Wrapper" }, inline := some { val := true },
          skipBound := none, bound := none })
      { typeParams := [], wherePredicates := [] }).body.run "salvo::Wrapper" { schemas := [] } =
      ({ schemas := [] },
       RefOr.Value (SchemaValue.built (SchemaVariant.Unnamed
         { symbol := some { val := "Wrapper" }, inline := some { val := true },
           skipBound := none, bound := none }))) := by
  have h := C6_inline_direct (fun _ _ => []) (Data.struct (Fields.unnamed 1))
    (SchemaVariant.Unnamed
      { symbol := some { val := "Wrapper" }, inline := some { val := true },
        skipBound := none, bound := none })
    { typeParams := [], wherePredicates := [] } rfl
  exact ⟨h.1, (h.2.2.2.2.2 "salvo::Wrapper" { schemas := [] }).trans (by decide)⟩

/-- C1 (counterexample): for the unit-marker type `Status` carrying an
Inline annotation, the emitted procedure body is the registering body:
its statements contain a registry insert, and running it mutates the
registry and returns a reference, not the schema value directly —
refuting the claim that the body contains no registry insert and returns
the schema value. -/
theorem C1_counterexample :
    (ToSchema.try_to_tokens (fun _ _ => []) (Data.struct Fields.unit)
      { parseUnnamed := Except.ok
          { symbol := none, inline := some { val := true },
            skipBound := none, bound := none, renameAll := none },
        parseNamed := Except.ok
          { symbol := none, inline := some { val := true },
            skipBound := none, bound := none, renameAll := none },
        parseEnum := Except.ok
          { symbol := none, inline := some { val := true },
            skipBound := none, bound := none, renameAll := none } }
      "Status" { typeParams := [], wherePredicates := [] }).map GenOut.body =
      Except.ok (BodyPlan.register SchemaExpr.emptySchema SymbolExpr.typeNameReplace) ∧
    Stmt.insertSchema SymbolExpr.typeNameReplace ∈
      (BodyPlan.register SchemaExpr.emptySchema SymbolExpr.typeNameReplace).stmts ∧
    (BodyPlan.register SchemaExpr.emptySchema SymbolExpr.typeNameReplace).run "Status"
        { schemas := [] } =
      ({ schemas := [("Status", SchemaValue.empty)] }, RefOr.Ref "#/components/schemas/Status") := by
  refine ⟨rfl, ?_, by decide⟩
  simp [BodyPlan.stmts]

/-- C1 (amended): for every unit-shaped type definition, classification
ignores the annotations and yields the unit variant, whose construction
expression is the fixed empty-schema value regardless of annotations;
however the unit variant exposes no inline feature, so the default symbol
is computed after all: the emitted body registers the empty schema under
the runtime type name (separators replaced by a dot) and returns a
reference to it rather than returning the schema value directly. -/
theorem C1_amended_unit_registers (part : Data → Generics → List String)
    (attrs : Attributes) (ident : String) (g : Generics) :
    SchemaVariant.new (Data.struct Fields.unit) attrs ident = Except.ok SchemaVariant.Unit ∧
    SchemaVariant.Unit.try_to_token_stream = SchemaExpr.emptySchema ∧
    (ToSchema.try_to_tokens part (Data.struct Fields.unit) attrs ident g).map GenOut.body =
      Except.ok (BodyPlan.register SchemaExpr.emptySchema SymbolExpr.typeNameReplace) ∧
    (∀ fullName comps,
      (BodyPlan.register SchemaExpr.emptySchema SymbolExpr.typeNameReplace).run fullName comps =
        (comps.insert (strReplace fullName "::" ".") SchemaValue.empty,
         RefOr.Ref ("#/components/schemas/" ++ strReplace fullName "::" "."))) :=
  ⟨rfl, rfl, rfl, fun _ _ => rfl⟩

/-- C7: SkipBound set to true wins over everything: the generated generics
are exactly the defaults-stripped declared generics — the where-clause is
unchanged and the declared per-parameter bounds are unchanged — so no
caller-supplied Bound text appears, even when a Bound feature is also
present (as the witness instantiation shows). -/
theorem C7_skip_bound_wins (part : Data → Generics → List String) (data : Data)
    (v : SchemaVariant) (g : Generics)
    (hsb : v.pop_skip_bound = some { val := true }) :
    (try_to_tokens_plan part data v g).generics = without_defaults g ∧
    (try_to_tokens_plan part data v g).generics.wherePredicates = g.wherePredicates ∧
    (try_to_tokens_plan part data v g).generics.typeParams.map TypeParam.bounds =
      g.typeParams.map TypeParam.bounds := by
  have hg : (try_to_tokens_plan part data v g).generics = without_defaults g := by
    simp [try_to_tokens_plan, hsb]
  refine ⟨hg, ?_, ?_⟩
  · rw [hg]
    rfl
  · rw [hg]
    simp [without_defaults, List.map_map]

theorem C7_witness :
    (try_to_tokens_plan (fun _ g => g.typeParams.map TypeParam.name)
      (Data.struct (Fields.named 1))
      (SchemaVariant.Named
        { symbol := none, inline := none,
          skipBound := some { val := true }, bound := some { text := "T : Clone" } })
      { typeParams := [{ name := "T", bounds := ["Send"], default := some "i32" }],
        wherePredicates := ["T : Sync"] }).generics =
      { typeParams := [{ name := "T", bounds := ["Send"], default := none }],
        wherePredicates := ["T : Sync"] } := by
  have h := C7_skip_bound_wins (fun _ g => g.typeParams.map TypeParam.name)
    (Data.struct (Fields.named 1))
    (SchemaVariant.Named
      { symbol := none, inline := none,
        skipBound := some { val := true }, bound := some { text := "T : Clone" } })
    { typeParams := [{ name := "T", bounds := ["Send"], default := some "i32" }],
      wherePredicates := ["T : Sync"] } rfl
  exact h.1.trans (by decide)

/-- C8: with SkipBound not set to true, an explicit Bound feature attaches
its literal text as an additional where-predicate on the defaults-stripped
generic-parameter list; with neither SkipBound true nor Bound present the
default ToSchema-plus-static constraint is synthesized via the external
bound-construction utility on the stripped list; and in every such path
every generated type parameter carries no default value. -/
theorem C8_bound_paths (part : Data → Generics → List String) (data : Data)
    (v : SchemaVariant) (g : Generics)
    (hsb : v.pop_skip_bound ≠ some { val := true }) :
    (∀ b, v.pop_bound = some b →
      (try_to_tokens_plan part data v g).generics =
        with_where_predicates (without_defaults g) b.text) ∧
    (v.pop_bound = none →
      (try_to_tokens_plan part data v g).generics =
        with_bound part data (without_defaults g) toSchemaStaticBound) ∧
    (∀ p ∈ (try_to_tokens_plan part data v g).generics.typeParams, p.default = none) := by
  have htp : (try_to_tokens_plan part data v g).generics.typeParams =
      (without_defaults g).typeParams := by
    cases hb : v.pop_bound with
    | none => simp [try_to_tokens_plan, hsb, hb, with_bound]
    | some b => simp [try_to_tokens_plan, hsb, hb, with_where_predicates]
  refine ⟨?_, ?_, ?_⟩
  · intro b hb
    simp [try_to_tokens_plan, hsb, hb]
  · intro hb
    simp [try_to_tokens_plan, hsb, hb]
  · intro p hp
    rw [htp] at hp
    simp [without_defaults] at hp
    obtain ⟨q, hq, hqp⟩ := hp
    subst hqp
    rfl

theorem C8_witness :
    (try_to_tokens_plan (fun _ g => g.typeParams.map TypeParam.name)
      (Data.struct (Fields.named 1))
      (SchemaVariant.Named
        { symbol := none, inline := none,
          skipBound := none, bound := some { text := "T : Clone" } })
      { typeParams := [{ name := "T", bounds := [], default := some "i32" }],
        wherePredicates := [] }).generics =
      { typeParams := [{ name := "T", bounds := [], default := none }],
        wherePredicates := ["T : Clone"] } ∧
    (try_to_tokens_plan (fun _ g => g.typeParams.map TypeParam.name)
      (Data.struct (Fields.named 1))
      (SchemaVariant.Named
        { symbol := none, inline := none,
          skipBound := some { val := false }, bound := none })
      { typeParams := [{ name := "T", bounds := [], default := some "i32" }],
        wherePredicates := [] }).generics =
      { typeParams := [{ name := "T", bounds := [], default := none }],
        wherePredicates := ["T : ToSchema + \x27static"] } := by
  constructor
  · have h := C8_bound_paths (fun _ g => g.typeParams.map TypeParam.name)
      (Data.struct (Fields.named 1))
      (SchemaVariant.Named
        { symbol := none, inline := none,
          skipBound := none, bound := some { text := "T : Clone" } })
      { typeParams := [{ name := "T", bounds := [], default := some "i32" }],
        wherePredicates := [] } (by decide)
    exact (h.1 { text := "T : Clone" } rfl).trans (by decide)
  · have h := C8_bound_paths (fun _ g => g.typeParams.map TypeParam.name)
      (Data.struct (Fields.named 1))
      (SchemaVariant.Named
        { symbol := none, inline := none,
          skipBound := some { val := false }, bound := none })
      { typeParams := [{ name := "T", bounds := [], default := some "i32" }],
        wherePredicates := [] } (by decide)
    exact (h.2.1 rfl).trans (by decide)

/-- C9: shape classification is total over the four supported forms and
fails otherwise: unnamed-field structs, named-field structs, unit structs
and enums each classify (given that the external feature parsing
succeeds) to exactly the corresponding variant, while any other data form
(a union) yields a generation-time error diagnostic located at the
identifier of the type, and the entry point emits no generation plan for
it. -/
theorem C9_classification_total (part : Data → Generics → List String)
    (attrs : Attributes) (ident : String) (g : Generics) (fs : ParsedFeatures) :
    (∀ n, attrs.parseUnnamed = Except.ok fs →
      SchemaVariant.new (Data.struct (Fields.unnamed n)) attrs ident =
        Except.ok (SchemaVariant.Unnamed
          { symbol := fs.symbol, inline := fs.inline,
            skipBound := fs.skipBound, bound := fs.bound })) ∧
    (∀ n, attrs.parseNamed = Except.ok fs →
      SchemaVariant.new (Data.struct (Fields.named n)) attrs ident =
        Except.ok (SchemaVariant.Named
          { symbol := fs.symbol, inline := fs.inline,
            skipBound := fs.skipBound, bound := fs.bound })) ∧
    SchemaVariant.new (Data.struct Fields.unit) attrs ident = Except.ok SchemaVariant.Unit ∧
    (∀ n, attrs.parseEnum = Except.ok fs →
      SchemaVariant.new (Data.enum n) attrs ident =
        Except.ok (SchemaVariant.Enum
          { symbol := fs.symbol, inline := fs.inline,
            skipBound := fs.skipBound, bound := fs.bound })) ∧
    SchemaVariant.new Data.union attrs ident =
      Except.error
        { span := ident, level := DiagLevel.error,
          message := "unexpected data type, expected syn::Data::Struct or syn::Data::Enum" } ∧
    ToSchema.try_to_tokens part Data.union attrs ident g =
      Except.error
        { span := ident, level := DiagLevel.error,
          message := "unexpected data type, expected syn::Data::Struct or syn::Data::Enum" } := by
  refine ⟨?_, ?_, rfl, ?_, rfl, rfl⟩
  · intro n h
    simp [SchemaVariant.new, h]
  · intro n h
    simp [SchemaVariant.new, h]
  · intro n h
    simp [SchemaVariant.new, h]

theorem C9_witness :
    SchemaVariant.new (Data.struct (Fields.unnamed 2))
      { parseUnnamed := Except.ok
          { symbol := none, inline := none, skipBound := none, bound := none, renameAll := none },
        parseNamed := Except.ok
          { symbol := none, inline := none, skipBound := none, bound := none, renameAll := none },
        parseEnum := Except.ok
          { symbol := none, inline := none, skipBound := none, bound := none, renameAll := none } }
      "Wrapper" =
      Except.ok (SchemaVariant.Unnamed
        { symbol := none, inline := none, skipBound := none, bound := none }) ∧
    SchemaVariant.new Data.union
      { parseUnnamed := Except.ok
          { symbol := none, inline := none, skipBound := none, bound := none, renameAll := none },
        parseNamed := Except.ok
          { symbol := none, inline := none, skipBound := none, bound := none, renameAll := none },
        parseEnum := Except.ok
          { symbol := none, inline := none, skipBound := none, bound := none, renameAll := none } }
      "MyUnion" =
      Except.error
        { span := "MyUnion", level := DiagLevel.error,
          message := "unexpected data type, expected syn::Data::Struct or syn::Data::Enum" } := by
  have h := C9_classification_total (fun _ _ => [])
    { parseUnnamed := Except.ok
        { symbol := none, inline := none, skipBound := none, bound := none, renameAll := none },
      parseNamed := Except.ok
        { symbol := none, inline := none, skipBound := none, bound := none, renameAll := none },
      parseEnum := Except.ok
        { symbol := none, inline := none, skipBound := none, bound := none, renameAll := none } }
    "Wrapper" { typeParams := [], wherePredicates := [] }
    { symbol := none, inline := none, skipBound := none, bound := none, renameAll := none }
  have h2 := C9_classification_total (fun _ _ => [])
    { parseUnnamed := Except.ok
        { symbol := none, inline := none, skipBound := none, bound := none, renameAll := none },
      parseNamed := Except.ok
        { symbol := none, inline := none, skipBound := none, bound := none, renameAll := none },
      parseEnum := Except.ok
        { symbol := none, inline := none, skipBound := none, bound := none, renameAll := none } }
    "MyUnion" { typeParams := [], wherePredicates := [] }
    { symbol := none, inline := none, skipBound := none, bound := none, renameAll := none }
  exact ⟨h.1 2 rfl, h2.2.2.2.2.1⟩

end SalvoOapi
